import Mathlib

/-!
Shallow embedding of the runner-club application service
(src/app/models.py, src/app/database.py, src/app/main.py).

Conventions of the embedding:
  - Python strings are Lean `String` (a list of characters); `len` is
    `String.length` (number of code points, as in Python).
  - Python `str.strip()` is `pyStrip`, defined directly on the character
    list: drop whitespace from the front and from the back.
  - Timestamps (`datetime.utcnow()`) are a `Nat` parameter `now` supplied
    by the caller of the embedded operation (the server clock).
  - The Firestore collection is a finite association list from document id
    to document data; `collection.document(id).set / get / update / delete`
    become pure functional updates of that list.  Auto-generated document
    ids (`collection.document()` with no argument) are a parameter of the
    embedded create operation, assumed fresh and non-empty where a claim
    needs it, because the generator itself lives in the Firestore client
    library, outside this repository.
  - Fallible Python code (exceptions) returns `Except String`.
  - Pydantic validation of a model collapses all per-field error messages
    to the single string "validation error": the claims never inspect the
    message text, only success or failure.
-/

/-- Python `str.strip()` on the underlying character list: drop leading
whitespace, then drop trailing whitespace. -/
def stripChars (l : List Char) : List Char :=
  ((l.dropWhile Char.isWhitespace).reverse.dropWhile Char.isWhitespace).reverse

/-- Python `str.strip()` as used by the name validator in
src/app/models.py. -/
def pyStrip (s : String) : String :=
  ⟨stripChars s.data⟩

/-- The `level` literals of `RunnerApplicationCreate.level`
(src/app/models.py lines 17-20). -/
def levels : List String := ["beginner", "intermediate", "advanced"]

/-- The `goal` literals of `RunnerApplicationCreate.goal`
(src/app/models.py lines 22-25). -/
def goals : List String := ["5k", "10k", "half_marathon", "marathon", "fitness"]

/-- The `dublin_zone` literals (src/app/models.py lines 33-41). -/
def zones : List String :=
  ["city_centre", "northside", "southside", "docklands",
   "phoenix_park", "coastal", "any"]

/-- The `status` literals of `RunnerApplication.status`
(src/app/models.py lines 92-95). -/
def statuses : List String := ["pending", "approved", "rejected"]

/-- Modelled from the spec: `email must satisfy standard email-address
syntax`.  The actual check is performed by the external email-validator
package behind pydantic `EmailStr`, which is not part of this repository;
it is abstracted as: exactly one `@`, a non-empty local part, and a
non-empty domain containing a dot.  No claim depends on the exact
email syntax. -/
def emailOk (s : String) : Bool :=
  match s.data.splitOn '@' with
  | [lp, dom] => !lp.isEmpty && !dom.isEmpty && dom.contains '.'
  | _ => false

/-- The submitted fields of an application: the pydantic model
`RunnerApplicationCreate` (src/app/models.py lines 10-69). -/
structure RunnerApplicationCreate where
  name : String
  email : String
  age : Int
  level : String
  goal : String
  availability : List String
  dublin_zone : String
  experience : Option String
  current_pace : Option String
deriving DecidableEq

/-- All pydantic checks of `RunnerApplicationCreate` in declaration order
(src/app/models.py lines 10-69): `name` is length-checked on the RAW value
(`Field(min_length=2, max_length=100)` runs before the after-mode
`validate_name`, which then strips and retains the stripped value);
`email` via `EmailStr`; `age` in [18, 100]; `level`, `goal`, `dublin_zone`
against their literal sets; `availability` non-empty (both by
`min_length=1` and by `validate_availability`); `experience` at most 500
characters and `current_pace` at most 20 characters when present. -/
def validCreateFields (c : RunnerApplicationCreate) : Bool :=
  2 ≤ c.name.length && c.name.length ≤ 100 && !(pyStrip c.name == "") &&
  emailOk c.email &&
  18 ≤ c.age && c.age ≤ 100 &&
  levels.contains c.level &&
  goals.contains c.goal &&
  1 ≤ c.availability.length &&
  zones.contains c.dublin_zone &&
  (match c.experience with | none => true | some e => e.length ≤ 500) &&
  (match c.current_pace with | none => true | some pc => pc.length ≤ 20) &&
  !c.availability.isEmpty

/-- Pydantic validation of `RunnerApplicationCreate`: either the
normalized model (name stripped, everything else as submitted) or a
validation error. -/
def validateRAC (c : RunnerApplicationCreate) :
    Except String RunnerApplicationCreate :=
  if validCreateFields c then .ok { c with name := pyStrip c.name }
  else .error "validation error"

/-- An arbitrary JSON body POSTed to the creation endpoint, before
validation.  `supplied_status`, `supplied_id` and `supplied_created_at`
stand for caller-supplied `status` / `id` / `created_at` keys: pydantic
drops unknown keys (`extra` defaults to ignore), so they never reach the
model; they are carried here only so that theorems can state that they
are ignored. -/
structure RawPayload where
  name : String
  email : String
  age : Int
  level : String
  goal : String
  availability : List String
  dublin_zone : String
  experience : Option String
  current_pace : Option String
  supplied_status : Option String := none
  supplied_id : Option String := none
  supplied_created_at : Option Nat := none
deriving DecidableEq

/-- Parsing a request body into `RunnerApplicationCreate`: the nine
declared fields are read, unknown keys are dropped, and pydantic
validation runs. -/
def validateCreate (p : RawPayload) : Except String RunnerApplicationCreate :=
  validateRAC
    ⟨p.name, p.email, p.age, p.level, p.goal, p.availability,
     p.dublin_zone, p.experience, p.current_pace⟩

/-- One Firestore document of the `applications` collection, as written by
`FirestoreDB.create_application` (src/app/database.py lines 40-48): the
dump of the validated model plus `created_at` and `status`. -/
structure StoredDoc where
  create : RunnerApplicationCreate
  created_at : Nat
  status : String
deriving DecidableEq

/-- The response model `RunnerApplication` (src/app/models.py lines
87-113): the submitted fields plus `id`, `created_at` and `status`. -/
structure RunnerApplication where
  create : RunnerApplicationCreate
  id : String
  created_at : Nat
  status : String
deriving DecidableEq

/-- Constructing `RunnerApplication(**data)` from a fetched document
re-runs the full pydantic validation of the inherited fields and checks
`status` against its literal set (src/app/database.py line 77). -/
def parseRunnerApplication (id : String) (d : StoredDoc) :
    Except String RunnerApplication :=
  if validCreateFields d.create && statuses.contains d.status then
    .ok ⟨{ d.create with name := pyStrip d.create.name },
         id, d.created_at, d.status⟩
  else .error "validation error"

/-- A document is valid-and-normalized when re-reading it succeeds and
returns its fields unchanged: the pydantic checks hold, the status is one
of the literals, and the stored name is already stripped. -/
def validDoc (d : StoredDoc) : Bool :=
  validCreateFields d.create && statuses.contains d.status &&
  pyStrip d.create.name == d.create.name

/-- The Firestore `applications` collection: document id to document
data.  Ids are unique in a real collection; the operations below use
overwrite semantics (`set` replaces any document with the same id), so
uniqueness is preserved by construction. -/
structure FirestoreDB where
  docs : List (String × StoredDoc)
deriving DecidableEq

/-- `collection.document(id).get`: the document with this id, if any. -/
def dbLookup (db : FirestoreDB) (id : String) : Option StoredDoc :=
  (db.docs.find? (fun x => x.1 == id)).map (·.2)

/-- `collection.document(id).set(data)`: overwrite-or-insert. -/
def dbSet (db : FirestoreDB) (id : String) (d : StoredDoc) : FirestoreDB :=
  ⟨(id, d) :: db.docs.filter (fun x => x.1 != id)⟩

/-- `collection.document(id).delete()`. -/
def dbDelete (db : FirestoreDB) (id : String) : FirestoreDB :=
  ⟨db.docs.filter (fun x => x.1 != id)⟩

/-- `FirestoreDB.create_application` (src/app/database.py lines 30-55):
dump the validated model, stamp `created_at` with the server clock and
`status` with "pending", write under a fresh auto-generated id `newId`
(supplied by the Firestore client), return the id. -/
def create_application (db : FirestoreDB) (appl : RunnerApplicationCreate)
    (newId : String) (now : Nat) : String × FirestoreDB :=
  (newId, dbSet db newId ⟨appl, now, "pending"⟩)

/-- `FirestoreDB.get_application` (src/app/database.py lines 57-81):
`none` when the document does not exist, otherwise reconstruct the full
`RunnerApplication` (which can raise a validation error). -/
def get_application (db : FirestoreDB) (id : String) :
    Except String (Option RunnerApplication) :=
  match dbLookup db id with
  | none => .ok none
  | some d => (parseRunnerApplication id d).map some

/-- The ordering used by `FirestoreDB.get_applications`
(src/app/database.py lines 101-104): creation timestamp descending. -/
def byCreatedDesc (a b : String × StoredDoc) : Prop :=
  b.2.created_at ≤ a.2.created_at

instance : DecidableRel byCreatedDesc :=
  fun a b => inferInstanceAs (Decidable (b.2.created_at ≤ a.2.created_at))

instance : IsTotal (String × StoredDoc) byCreatedDesc :=
  ⟨fun a b => Nat.le_total b.2.created_at a.2.created_at⟩

instance : IsTrans (String × StoredDoc) byCreatedDesc :=
  ⟨fun _ _ _ h1 h2 => Nat.le_trans h2 h1⟩

/-- Python truthiness of an optional-string query filter: `if level:` in
src/app/database.py lines 107-110 skips the filter for `None` AND for the
empty string. -/
def levelMatch (f : Option String) (d : StoredDoc) : Bool :=
  match f with
  | none => true
  | some s => if s = "" then true else d.create.level == s

/-- Same, for the `goal` filter. -/
def goalMatch (f : Option String) (d : StoredDoc) : Bool :=
  match f with
  | none => true
  | some s => if s = "" then true else d.create.goal == s

/-- The documents selected by the Firestore query built in
`FirestoreDB.get_applications` (src/app/database.py lines 100-115):
order by `created_at` descending, apply the equality filters when the
argument is truthy, truncate to `limit`. -/
def queryDocs (db : FirestoreDB) (limit : Nat)
    (level goal : Option String) : List (String × StoredDoc) :=
  (((db.docs.insertionSort byCreatedDesc).filter
      (fun x => levelMatch level x.2 && goalMatch goal x.2)).take limit)

/-- `FirestoreDB.get_applications` (src/app/database.py lines 83-128):
run the query and reconstruct every selected document; a single document
that fails model validation raises and aborts the whole call. -/
def get_applications (db : FirestoreDB) (limit : Nat)
    (level goal : Option String) : Except String (List RunnerApplication) :=
  (queryDocs db limit level goal).mapM
    (fun x => parseRunnerApplication x.1 x.2)

/-- `FirestoreDB.delete_application` (src/app/database.py lines 130-153):
fetch first; `false` and no change when absent, otherwise delete and
`true`. -/
def delete_application (db : FirestoreDB) (id : String) :
    Bool × FirestoreDB :=
  match dbLookup db id with
  | none => (false, db)
  | some _ => (true, dbDelete db id)

/-- `FirestoreDB.update_application_status` (src/app/database.py lines
155-184): `none` and no change when absent; otherwise overwrite exactly
the `status` field (`doc_ref.update({'status': status})`) and re-read the
document.  The store component of the pair is the collection state after
the call: the write persists even when the re-read raises. -/
def update_application_status (db : FirestoreDB) (id : String)
    (st : String) : Except String (Option RunnerApplication) × FirestoreDB :=
  match dbLookup db id with
  | none => (.ok none, db)
  | some d =>
    let db2 := dbSet db id { d with status := st }
    (get_application db2 id, db2)

/-- Outcome of the `GET /health` probe `db.get_applications(limit=1)`
IF it were executed: `failed` stands for an execution in which the
storage call raises (storage unreachable). -/
inductive ProbeOutcome
  | ok
  | failed
deriving DecidableEq

/-- The `GET /health` handler (src/app/main.py lines 54-76), as written:
the probe `db.get_applications(limit=1)` is an async call with NO await,
so Python merely constructs a coroutine object and discards it — no
storage I/O happens and nothing can raise, whatever the state of the
store.  The except-branch that returns 503 is therefore unreachable via
storage failure, and the handler returns 200 "healthy" unconditionally. -/
def health_check : ProbeOutcome → Nat × String :=
  fun _ => (200, "healthy")

/-- Modelled from the spec: `GET /health` returns 200 with a timestamp
when the storage probe succeeds and 503 with an error message when the
attempt to reach storage fails.  This is the intended handler, i.e. the
source with the missing `await` restored. -/
def health_check_spec (probe : ProbeOutcome) : Nat × String :=
  match probe with
  | .ok => (200, "healthy")
  | .failed => (503, "unhealthy")

/-- Result of the `POST /api/applications` handler. -/
inductive CreateResult
  | created (r : RunnerApplication)
  | validationError (msg : String)
  | internalError
deriving DecidableEq

/-- HTTP status of a creation outcome: 201 from the route decorator
(src/app/main.py line 79); 400 for validation failure — for a
`ValueError` (hence any pydantic `ValidationError`) raised inside the
handler this is the `except ValueError` mapping of lines 112-117, and
for a rejected request body it is modelled from the spec, which maps
validation errors to 400 (that framework-level mapping lives in
FastAPI, outside this repository); 500 from the handler's
internal-error paths (lines 103-107 and 118-123). -/
def CreateResult.statusCode : CreateResult → Nat
  | .created _ => 201
  | .validationError _ => 400
  | .internalError => 500

/-- How the post-create re-read of the new document behaves, an injection
point for the storage failures of src/app/main.py lines 101-107:
`normal` executes `get_application` on the current store, `returnsNone`
models the fetch finding nothing, `raises` models the fetch raising. -/
inductive FetchMode
  | normal
  | returnsNone
  | raises
deriving DecidableEq

/-- Python exception dispatch for the exceptions of this embedding:
pydantic `ValidationError` SUBCLASSES `ValueError`, so the handler
clause `except ValueError` (src/app/main.py lines 112-117) catches it.
In this embedding every pydantic validation failure carries exactly the
message "validation error" and is the only `ValueError` that can arise;
any other message stands for a storage or client exception outside the
`ValueError` hierarchy. -/
def isValueError (e : String) : Bool := e == "validation error"

/-- The `POST /api/applications` handler (src/app/main.py lines 79-123):
validate the body, create the document, re-read it.  A re-read that
finds no document triggers the `HTTPException(500)` of lines 103-107,
which the blanket `except Exception` of lines 118-123 catches and
re-raises as 500.  A re-read that RAISES is dispatched on the exception
class: a pydantic `ValidationError` is a `ValueError` and is answered
400 by the `except ValueError` clause of lines 112-117, while any other
exception is answered 500.  No path rolls the write back: the store
component is the collection state after the call. -/
def createEndpoint (db : FirestoreDB) (raw : RawPayload) (newId : String)
    (now : Nat) (fetch : FetchMode) : CreateResult × FirestoreDB :=
  match validateCreate raw with
  | .error e => (.validationError e, db)
  | .ok appl =>
    let res := create_application db appl newId now
    let fetched : Except String (Option RunnerApplication) :=
      match fetch with
      | .normal => get_application res.2 res.1
      | .returnsNone => .ok none
      | .raises => .error "storage failure"
    match fetched with
    | .ok (some r) => (.created r, res.2)
    | .ok none => (.internalError, res.2)
    | .error e =>
      if isValueError e then (.validationError e, res.2)
      else (.internalError, res.2)

/-- The `GET /api/applications` handler (src/app/main.py lines 126-156):
query parameters `limit` (default 50 when absent), `level`, `goal` are
passed through to the storage adapter. -/
def list_applications (db : FirestoreDB) (limit : Option Nat)
    (level goal : Option String) : Except String (List RunnerApplication) :=
  get_applications db (limit.getD 50) level goal

/-- The `DELETE /api/applications/{id}` handler (src/app/main.py lines
183-205): 204 when the adapter reports success, 404 when it reports the
id absent.  The store component is the collection state after the call. -/
def delete_endpoint (db : FirestoreDB) (id : String) : Nat × FirestoreDB :=
  match delete_application db id with
  | (true, db2) => (204, db2)
  | (false, db2) => (404, db2)

/-- The stats payload of `GET /api/stats` (src/app/main.py lines
214-219): a total and three tally mappings, modelled as insertion-ordered
association lists exactly like Python dicts. -/
structure Stats where
  total_applications : Nat
  by_level : List (String × Nat)
  by_goal : List (String × Nat)
  by_zone : List (String × Nat)
deriving DecidableEq

/-- One step of `stats[key].get(k, 0) + 1` on a Python dict: bump the
entry in place when the key is present, append it with count 1 when it
is not. -/
def bump : List (String × Nat) → String → List (String × Nat)
  | [], k => [(k, 1)]
  | (k2, n) :: rest, k =>
    if k2 = k then (k2, n + 1) :: rest else (k2, n) :: bump rest k

/-- The aggregation loop of `GET /api/stats` (src/app/main.py lines
221-229) over the fetched records. -/
def tallyStats (all_apps : List RunnerApplication) : Stats :=
  all_apps.foldl
    (fun s a =>
      { s with
        by_level := bump s.by_level a.create.level,
        by_goal := bump s.by_goal a.create.goal,
        by_zone := bump s.by_zone a.create.dublin_zone })
    ⟨all_apps.length, [], [], []⟩

/-- The `GET /api/stats` handler (src/app/main.py lines 208-238): fetch
up to 1000 records with no filters, then tally in memory. -/
def get_stats (db : FirestoreDB) : Except String Stats :=
  (get_applications db 1000 none none).map tallyStats

/-- The example payload of the spec (src/app/models.py lines 71-84). -/
def examplePayload : RawPayload :=
  { name := "Mario Rossi", email := "mario@example.com", age := 35,
    level := "intermediate", goal := "half_marathon",
    availability := ["monday_evening"], dublin_zone := "southside",
    experience := none, current_pace := none }

/-- The corresponding validated model. -/
def exampleCreate : RunnerApplicationCreate :=
  ⟨"Mario Rossi", "mario@example.com", 35, "intermediate", "half_marathon",
   ["monday_evening"], "southside", none, none⟩

/-- A valid, normalized stored document built from the example. -/
def exampleDoc : StoredDoc := ⟨exampleCreate, 10, "pending"⟩

/-- The example with level "beginner". -/
def exampleBeginner : RunnerApplicationCreate :=
  { exampleCreate with level := "beginner" }

/-- The example with level "advanced". -/
def exampleAdvanced : RunnerApplicationCreate :=
  { exampleCreate with level := "advanced" }

/-- A concrete collection of three valid documents with levels
beginner, beginner, advanced (the stats example of the spec), already
in descending creation order. -/
def statsDocs : List (String × StoredDoc) :=
  [("a", ⟨exampleBeginner, 3, "pending"⟩),
   ("b", ⟨exampleBeginner, 2, "pending"⟩),
   ("c", ⟨exampleAdvanced, 1, "pending"⟩)]

/-- The records fetched from `statsDocs` by an unfiltered list query. -/
def statsApps : List RunnerApplication :=
  [⟨exampleBeginner, "a", 3, "pending"⟩,
   ⟨exampleBeginner, "b", 2, "pending"⟩,
   ⟨exampleAdvanced, "c", 1, "pending"⟩]

/-- Reconstructing a fetched document whose data is valid and normalized
just repackages its fields with the id attached. -/
def docToApp (x : String × StoredDoc) : RunnerApplication :=
  ⟨x.2.create, x.1, x.2.created_at, x.2.status⟩

theorem dropWhile_head_false {α : Type} {p : α → Bool} :
    ∀ {l : List α} {a : α} {t : List α}, l.dropWhile p = a :: t → p a = false
  | [], _, _, h => by simp [List.dropWhile] at h
  | b :: l, a, t, h => by
    by_cases hb : p b
    · rw [List.dropWhile_cons_of_pos hb] at h
      exact dropWhile_head_false h
    · rw [List.dropWhile_cons_of_neg hb] at h
      cases h
      exact Bool.not_eq_true _ ▸ eq_false_of_ne_true hb

theorem dropWhile_of_head_false {α : Type} {p : α → Bool} {l : List α}
    (h : ∀ a t, l = a :: t → p a = false) : l.dropWhile p = l := by
  cases l with
  | nil => rfl
  | cons a t => exact List.dropWhile_cons_of_neg (by simp [h a t rfl])

theorem getLast?_dropWhile {α : Type} {p : α → Bool} :
    ∀ {l : List α}, l.dropWhile p ≠ [] →
      (l.dropWhile p).getLast? = l.getLast?
  | [], h => by simp [List.dropWhile] at h
  | a :: t, h => by
    by_cases ha : p a
    · rw [List.dropWhile_cons_of_pos ha] at h ⊢
      have ht : t ≠ [] := by
        intro he
        apply h
        rw [he]
        rfl
      rw [getLast?_dropWhile h]
      cases t with
      | nil => exact absurd rfl ht
      | cons b t2 => simp [List.getLast?_cons_cons]
    · rw [List.dropWhile_cons_of_neg ha]

theorem stripChars_length_le (l : List Char) :
    (stripChars l).length ≤ l.length := by
  unfold stripChars
  rw [List.length_reverse]
  calc ((l.dropWhile Char.isWhitespace).reverse.dropWhile
          Char.isWhitespace).length
      ≤ (l.dropWhile Char.isWhitespace).reverse.length :=
        (List.dropWhile_sublist _).length_le
    _ = (l.dropWhile Char.isWhitespace).length := List.length_reverse _
    _ ≤ l.length := (List.dropWhile_sublist _).length_le

theorem stripChars_idem (l : List Char) :
    stripChars (stripChars l) = stripChars l := by
  unfold stripChars
  set p := Char.isWhitespace with hp
  set A := l.dropWhile p with hA
  set B := A.reverse.dropWhile p with hB
  have hfront : B.reverse.dropWhile p = B.reverse := by
    apply dropWhile_of_head_false
    intro a t hat
    have hBne : B ≠ [] := by
      intro he
      rw [he] at hat
      exact List.cons_ne_nil a t hat.symm
    have h1 : B.reverse.head? = some a := by rw [hat]; rfl
    have h2 : B.getLast? = some a := by
      rw [← List.head?_reverse]; exact h1
    have h3 : A.reverse.getLast? = some a := by
      rw [← getLast?_dropWhile (hB ▸ hBne)]
      exact hB ▸ h2
    have h4 : A.head? = some a := by
      rw [← List.getLast?_reverse]; exact h3
    cases hAc : A with
    | nil => rw [hAc] at h4; simp at h4
    | cons b t2 =>
      rw [hAc] at h4
      cases h4
      exact dropWhile_head_false (hA.symm ▸ hAc)
  rw [hfront, List.reverse_reverse, List.dropWhile_idempotent]

theorem pyStrip_idem (s : String) : pyStrip (pyStrip s) = pyStrip s := by
  unfold pyStrip
  exact congrArg String.mk (stripChars_idem s.data)

theorem pyStrip_length_le (s : String) : (pyStrip s).length ≤ s.length :=
  stripChars_length_le s.data

theorem validateRAC_ok {c q : RunnerApplicationCreate}
    (h : validateRAC c = .ok q) :
    validCreateFields c = true ∧ q = { c with name := pyStrip c.name } := by
  unfold validateRAC at h
  split at h
  · exact ⟨by assumption, (Except.ok.inj h).symm⟩
  · exact absurd h (by simp)

theorem validCreateFields_strip {c : RunnerApplicationCreate}
    (h : validCreateFields c = true) (hlen : 2 ≤ (pyStrip c.name).length) :
    validCreateFields { c with name := pyStrip c.name } = true := by
  simp only [validCreateFields, Bool.and_eq_true, decide_eq_true_eq,
    Bool.not_eq_true', beq_eq_false_iff_ne] at h ⊢
  obtain ⟨⟨⟨⟨⟨⟨⟨⟨⟨⟨⟨⟨h1, h2⟩, h3⟩, h4⟩, h5⟩, h6⟩, h7⟩, h8⟩, h9⟩,
    h10⟩, h11⟩, h12⟩, h13⟩ := h
  refine ⟨⟨⟨⟨⟨⟨⟨⟨⟨⟨⟨⟨hlen, ?_⟩, ?_⟩, h4⟩, h5⟩, h6⟩, h7⟩, h8⟩, h9⟩,
    h10⟩, h11⟩, h12⟩, h13⟩
  · exact le_trans (pyStrip_length_le c.name) h2
  · rw [pyStrip_idem]
    exact h3

theorem parse_of_validDoc {d : StoredDoc} (hv : validDoc d = true)
    (id : String) :
    parseRunnerApplication id d = .ok ⟨d.create, id, d.created_at, d.status⟩ := by
  unfold validDoc at hv
  simp only [Bool.and_eq_true, beq_iff_eq] at hv
  obtain ⟨⟨h1, h2⟩, h3⟩ := hv
  unfold parseRunnerApplication
  rw [h1, h2]
  simp only [Bool.and_self, if_pos]
  rw [h3]

theorem validateCreate_parse {raw : RawPayload}
    {q : RunnerApplicationCreate}
    (h : validateCreate raw = .ok q) (hlen : 2 ≤ q.name.length) :
    validDoc ⟨q, now, "pending"⟩ = true := by
  obtain ⟨hv, hq⟩ := validateRAC_ok h
  unfold validDoc
  simp only [Bool.and_eq_true, beq_iff_eq]
  subst hq
  refine ⟨⟨validCreateFields_strip hv hlen, by decide⟩, ?_⟩
  exact pyStrip_idem _

theorem find?_filter_ne_self (l : List (String × StoredDoc)) (id : String) :
    (l.filter (fun x => x.1 != id)).find? (fun x => x.1 == id) = none := by
  induction l with
  | nil => rfl
  | cons a t ih =>
    by_cases h : a.1 = id
    · simp only [List.filter_cons, h, bne_self_eq_false]
      exact ih
    · have hb : (a.1 != id) = true := by simp [bne_iff_ne, h]
      simp only [List.filter_cons, hb, if_pos]
      rw [List.find?_cons]
      have : (a.1 == id) = false := by simp [h]
      rw [this]
      exact ih

theorem find?_filter_ne_other (l : List (String × StoredDoc))
    (id j : String) (h : j ≠ id) :
    (l.filter (fun x => x.1 != id)).find? (fun x => x.1 == j) =
      l.find? (fun x => x.1 == j) := by
  induction l with
  | nil => rfl
  | cons a t ih =>
    by_cases ha : a.1 = id
    · have hb : (a.1 != id) = false := by simp [ha]
      have hj : (a.1 == j) = false := by
        simp only [beq_eq_false_iff_ne]
        rw [ha]
        exact fun he => h he.symm
      simp only [List.filter_cons, hb, Bool.false_eq_true, if_neg,
        not_false_iff, List.find?_cons, hj]
      exact ih
    · have hb : (a.1 != id) = true := by simp [bne_iff_ne, ha]
      simp only [List.filter_cons, hb, if_pos, List.find?_cons]
      cases hje : (a.1 == j) with
      | true => rfl
      | false => exact ih

theorem dbLookup_dbSet_self (db : FirestoreDB) (id : String)
    (d : StoredDoc) : dbLookup (dbSet db id d) id = some d := by
  simp [dbLookup, dbSet, List.find?_cons]

theorem dbLookup_dbSet_ne (db : FirestoreDB) (id j : String)
    (d : StoredDoc) (h : j ≠ id) :
    dbLookup (dbSet db id d) j = dbLookup db j := by
  unfold dbLookup dbSet
  rw [List.find?_cons]
  have : (id == j) = false := by
    simp only [beq_eq_false_iff_ne]
    exact fun he => h he.symm
  rw [this]
  rw [find?_filter_ne_other db.docs id j h]

theorem dbLookup_dbDelete_self (db : FirestoreDB) (id : String) :
    dbLookup (dbDelete db id) id = none := by
  unfold dbLookup dbDelete
  rw [find?_filter_ne_self]
  rfl

theorem dbLookup_dbDelete_ne (db : FirestoreDB) (id j : String)
    (h : j ≠ id) : dbLookup (dbDelete db id) j = dbLookup db j := by
  unfold dbLookup dbDelete
  rw [find?_filter_ne_other db.docs id j h]

theorem mapM_parse_of_valid :
    ∀ (l : List (String × StoredDoc)),
      (∀ x ∈ l, validDoc x.2 = true) →
      (l.mapM (fun x => parseRunnerApplication x.1 x.2) =
        .ok (l.map docToApp))
  | [], _ => rfl
  | a :: t, h => by
    rw [List.mapM_cons, parse_of_validDoc (h a (List.mem_cons_self a t)),
      mapM_parse_of_valid t (fun x hx => h x (List.mem_cons_of_mem a hx))]
    rfl

theorem queryDocs_valid {db : FirestoreDB}
    (h : ∀ x ∈ db.docs, validDoc x.2 = true) (limit : Nat)
    (level goal : Option String) :
    ∀ x ∈ queryDocs db limit level goal, validDoc x.2 = true := by
  intro x hx
  apply h
  have h1 : x ∈ (db.docs.insertionSort byCreatedDesc).filter
      (fun x => levelMatch level x.2 && goalMatch goal x.2) :=
    List.mem_of_mem_take hx
  have h2 : x ∈ db.docs.insertionSort byCreatedDesc :=
    List.mem_of_mem_filter h1
  exact (List.mem_insertionSort byCreatedDesc).mp h2

theorem queryDocs_sorted (db : FirestoreDB) (limit : Nat)
    (level goal : Option String) :
    List.Sorted byCreatedDesc (queryDocs db limit level goal) := by
  have hs : List.Sorted byCreatedDesc
      (db.docs.insertionSort byCreatedDesc) :=
    List.sorted_insertionSort byCreatedDesc db.docs
  exact List.Pairwise.sublist
    ((List.take_sublist _ _).trans (List.filter_sublist _)) hs

theorem queryDocs_mem_filter {db : FirestoreDB} {limit : Nat}
    {level goal : Option String} {x : String × StoredDoc}
    (hx : x ∈ queryDocs db limit level goal) :
    levelMatch level x.2 = true ∧ goalMatch goal x.2 = true := by
  have h1 : x ∈ (db.docs.insertionSort byCreatedDesc).filter
      (fun x => levelMatch level x.2 && goalMatch goal x.2) :=
    List.mem_of_mem_take hx
  have h2 := List.of_mem_filter h1
  simpa [Bool.and_eq_true] using h2

theorem queryDocs_length (db : FirestoreDB) (limit : Nat)
    (level goal : Option String) :
    (queryDocs db limit level goal).length =
      min limit
        ((db.docs.filter
          (fun x => levelMatch level x.2 && goalMatch goal x.2)).length) := by
  unfold queryDocs
  rw [List.length_take]
  congr 1
  exact ((List.perm_insertionSort byCreatedDesc db.docs).filter _).length_eq

theorem lookup_bump_self :
    ∀ (m : List (String × Nat)) (k : String),
      (bump m k).lookup k = some (((m.lookup k).getD 0) + 1)
  | [], k => by simp [bump]
  | (k2, n) :: rest, k => by
    by_cases h : k2 = k
    · subst h
      simp [bump, List.lookup_cons]
    · have hb : (k == k2) = false := by
        simp only [beq_eq_false_iff_ne]
        exact fun he => h he.symm
      simp only [bump, h, if_neg, not_false_iff, List.lookup_cons, hb]
      exact lookup_bump_self rest k

theorem lookup_bump_ne :
    ∀ (m : List (String × Nat)) (k j : String), j ≠ k →
      (bump m k).lookup j = m.lookup j
  | [], k, j, h => by
    have hb : (j == k) = false := by simp [h]
    simp [bump, List.lookup_cons, hb]
  | (k2, n) :: rest, k, j, h => by
    by_cases h2 : k2 = k
    · subst h2
      have hb : (j == k2) = false := by simp [h]
      simp [bump, List.lookup_cons, hb]
    · simp only [bump, h2, if_neg, not_false_iff, List.lookup_cons]
      cases hje : (j == k2) with
      | true => rfl
      | false => exact lookup_bump_ne rest k j h

theorem lookup_foldl_bump :
    ∀ (ks : List String) (m : List (String × Nat)) (k : String),
      (ks.foldl bump m).lookup k =
        match m.lookup k with
        | some n => some (n + ks.count k)
        | none => if ks.count k = 0 then none else some (ks.count k)
  | [], m, k => by
    cases h : m.lookup k <;> simp [h]
  | a :: t, m, k => by
    rw [List.foldl_cons, lookup_foldl_bump t (bump m a) k]
    by_cases ha : a = k
    · subst ha
      rw [lookup_bump_self]
      have hc : (a :: t).count a = t.count a + 1 := by
        simp [List.count_cons]
      rw [hc]
      cases h : m.lookup a with
      | some n => simp [h]; omega
      | none =>
        simp [h]
        omega
    · rw [lookup_bump_ne m a k (fun he => ha he.symm)]
      have hc : (a :: t).count k = t.count k := by
        simp [List.count_cons, ha]
      rw [hc]

theorem tallyStats_total (all_apps : List RunnerApplication) :
    (tallyStats all_apps).total_applications = all_apps.length := by
  unfold tallyStats
  generalize hs : (⟨all_apps.length, [], [], []⟩ : Stats) = s0
  have : ∀ (l : List RunnerApplication) (s : Stats),
      (l.foldl (fun s a =>
        { s with
          by_level := bump s.by_level a.create.level,
          by_goal := bump s.by_goal a.create.goal,
          by_zone := bump s.by_zone a.create.dublin_zone }) s
        ).total_applications = s.total_applications := by
    intro l
    induction l with
    | nil => intro s; rfl
    | cons a t ih => intro s; rw [List.foldl_cons]; exact ih _
  rw [this]
  rw [← hs]

theorem tallyStats_by_level (all_apps : List RunnerApplication) :
    (tallyStats all_apps).by_level =
      (all_apps.map (fun a => a.create.level)).foldl bump [] := by
  unfold tallyStats
  generalize hs : (⟨all_apps.length, [], [], []⟩ : Stats) = s0
  have : ∀ (l : List RunnerApplication) (s : Stats),
      (l.foldl (fun s a =>
        { s with
          by_level := bump s.by_level a.create.level,
          by_goal := bump s.by_goal a.create.goal,
          by_zone := bump s.by_zone a.create.dublin_zone }) s
        ).by_level = (l.map (fun a => a.create.level)).foldl bump s.by_level := by
    intro l
    induction l with
    | nil => intro s; rfl
    | cons a t ih => intro s; rw [List.foldl_cons]; exact ih _
  rw [this]
  rw [← hs]

theorem tallyStats_by_goal (all_apps : List RunnerApplication) :
    (tallyStats all_apps).by_goal =
      (all_apps.map (fun a => a.create.goal)).foldl bump [] := by
  unfold tallyStats
  generalize hs : (⟨all_apps.length, [], [], []⟩ : Stats) = s0
  have : ∀ (l : List RunnerApplication) (s : Stats),
      (l.foldl (fun s a =>
        { s with
          by_level := bump s.by_level a.create.level,
          by_goal := bump s.by_goal a.create.goal,
          by_zone := bump s.by_zone a.create.dublin_zone }) s
        ).by_goal = (l.map (fun a => a.create.goal)).foldl bump s.by_goal := by
    intro l
    induction l with
    | nil => intro s; rfl
    | cons a t ih => intro s; rw [List.foldl_cons]; exact ih _
  rw [this]
  rw [← hs]

theorem tallyStats_by_zone (all_apps : List RunnerApplication) :
    (tallyStats all_apps).by_zone =
      (all_apps.map (fun a => a.create.dublin_zone)).foldl bump [] := by
  unfold tallyStats
  generalize hs : (⟨all_apps.length, [], [], []⟩ : Stats) = s0
  have : ∀ (l : List RunnerApplication) (s : Stats),
      (l.foldl (fun s a =>
        { s with
          by_level := bump s.by_level a.create.level,
          by_goal := bump s.by_goal a.create.goal,
          by_zone := bump s.by_zone a.create.dublin_zone }) s
        ).by_zone =
        (l.map (fun a => a.create.dublin_zone)).foldl bump s.by_zone := by
    intro l
    induction l with
    | nil => intro s; rfl
    | cons a t ih => intro s; rw [List.foldl_cons]; exact ih _
  rw [this]
  rw [← hs]

theorem lookup_tally (ks : List String) (k : String) :
    (ks.foldl bump []).lookup k =
      if ks.count k = 0 then none else some (ks.count k) := by
  rw [lookup_foldl_bump]
  rfl

/-- C1: the claim says `GET /health` returns 503 with an error message
for every execution in which the storage call raises.  In the code the
probe `db.get_applications(limit=1)` is missing its `await`, so the
storage call never executes and nothing can raise: the handler answers
200 "healthy" even when storage is unreachable, diverging from the
spec-modelled handler, which answers 503 there. -/
theorem c1_health_always_200 :
    health_check .failed = (200, "healthy") ∧
    health_check_spec .failed = (503, "unhealthy") ∧
    health_check .failed ≠ health_check_spec .failed :=
  ⟨rfl, rfl, by decide⟩

/-- C2 counterexample: the payload equal to the documented example but
with name "b " (length 2, so it passes `min_length=2` on the raw value)
is accepted, and the retained, stripped name is "b", of length 1 — so an
accepted payload CAN yield a stored name shorter than 2 characters. -/
theorem c2_counterexample :
    validateCreate { examplePayload with name := "b " } =
      .ok { exampleCreate with name := "b" } ∧
    ({ exampleCreate with name := "b" } :
      RunnerApplicationCreate).name.length = 1 :=
  ⟨rfl, rfl⟩

/-- C2 (amended): for every payload accepted by validation, the RAW name
is between 2 and 100 characters, and the retained value is the
whitespace-stripped raw name, which is non-empty; the retained value can
be shorter than 2 characters (the length bounds apply to the raw value,
before stripping). -/
theorem c2_amended (p : RawPayload) (q : RunnerApplicationCreate)
    (h : validateCreate p = .ok q) :
    2 ≤ p.name.length ∧ p.name.length ≤ 100 ∧
    q.name = pyStrip p.name ∧ q.name ≠ "" := by
  obtain ⟨hv, hq⟩ := validateRAC_ok h
  simp only [validCreateFields, Bool.and_eq_true, decide_eq_true_eq,
    Bool.not_eq_true', beq_eq_false_iff_ne] at hv
  obtain ⟨⟨⟨⟨⟨⟨⟨⟨⟨⟨⟨⟨h1, h2⟩, h3⟩, _⟩, _⟩, _⟩, _⟩, _⟩, _⟩, _⟩, _⟩, _⟩,
    _⟩ := hv
  refine ⟨h1, h2, ?_, ?_⟩
  · rw [hq]
  · rw [hq]
    exact h3

/-- C2 witness: the documented example payload is accepted and satisfies
the amended statement. -/
theorem c2_amended_witness :
    validateCreate examplePayload = .ok exampleCreate ∧
    (2 ≤ examplePayload.name.length ∧
      examplePayload.name.length ≤ 100 ∧
      exampleCreate.name = pyStrip examplePayload.name ∧
      exampleCreate.name ≠ "") :=
  ⟨rfl, c2_amended examplePayload exampleCreate rfl⟩

/-- C8 counterexample: the payload equal to the documented example but
with name " c" is accepted by validation (raw length 2), Create persists
the stripped name "c", and the subsequent fetch by the returned id
RAISES a validation error (stored name length 1 fails `min_length=2` on
re-read) instead of returning a field-for-field-equal record. -/
theorem c8_counterexample :
    validateCreate { examplePayload with name := " c" } =
      .ok { exampleCreate with name := "c" } ∧
    get_application
      (create_application ⟨[]⟩ { exampleCreate with name := "c" }
        "fsid8" 5).2
      (create_application ⟨[]⟩ { exampleCreate with name := "c" }
        "fsid8" 5).1 =
      .error "validation error" :=
  ⟨rfl, rfl⟩

/-- C8 (amended): for every valid creation payload whose retained
(stripped) name has at least 2 characters, creating a record from the
validated payload and then fetching it by the returned id yields a
record equal to the validated payload on all submitted fields, with the
server-assigned id, timestamp and "pending" status attached. -/
theorem c8_amended (db : FirestoreDB) (raw : RawPayload)
    (q : RunnerApplicationCreate) (newId : String) (now : Nat)
    (hok : validateCreate raw = .ok q) (hname : 2 ≤ q.name.length) :
    get_application (create_application db q newId now).2
        (create_application db q newId now).1 =
      .ok (some ⟨q, newId, now, "pending"⟩) := by
  have hv : validDoc ⟨q, now, "pending"⟩ = true :=
    validateCreate_parse hok hname
  show get_application (dbSet db newId ⟨q, now, "pending"⟩) newId =
    .ok (some ⟨q, newId, now, "pending"⟩)
  unfold get_application
  rw [dbLookup_dbSet_self]
  show (parseRunnerApplication newId ⟨q, now, "pending"⟩).map some =
    .ok (some ⟨q, newId, now, "pending"⟩)
  rw [parse_of_validDoc hv]
  rfl

/-- C8 witness: round-trip at the documented example. -/
theorem c8_amended_witness :
    get_application
      (create_application ⟨[]⟩ exampleCreate "fsid8w" 5).2
      (create_application ⟨[]⟩ exampleCreate "fsid8w" 5).1 =
      .ok (some ⟨exampleCreate, "fsid8w", 5, "pending"⟩) :=
  c8_amended ⟨[]⟩ examplePayload exampleCreate "fsid8w" 5 rfl (by decide)

/-- C3 counterexample: for a store holding one valid record under id "a"
and the status string "foo", the update writes "foo" to the store (no
enum enforcement on the write) but does NOT return the refreshed record:
re-reading raises a validation error because "foo" is not one of the
status literals of the response model. -/
theorem c3_counterexample :
    (update_application_status ⟨[("a", exampleDoc)]⟩ "a" "foo").1 =
      .error "validation error" ∧
    dbLookup (update_application_status ⟨[("a", exampleDoc)]⟩ "a" "foo").2
        "a" = some { exampleDoc with status := "foo" } :=
  ⟨rfl, rfl⟩

/-- C3 (amended): for an absent id, UpdateStatus returns "not found" and
leaves the store unchanged.  For a stored id, it overwrites only the
status field — id, created_at and all submitted fields are unchanged in
the store, and all other documents are untouched — and this write
happens for ANY status string, with no enum enforcement; but the
operation returns the refreshed record only when the updated document
still parses (in particular the new status must be one of
pending/approved/rejected), and raises a validation error otherwise. -/
theorem c3_amended (db : FirestoreDB) (id st : String) :
    (dbLookup db id = none →
      update_application_status db id st = (.ok none, db)) ∧
    (∀ d, dbLookup db id = some d →
      dbLookup (update_application_status db id st).2 id =
        some { d with status := st } ∧
      (∀ j, j ≠ id →
        dbLookup (update_application_status db id st).2 j =
          dbLookup db j) ∧
      (validDoc { d with status := st } = true →
        (update_application_status db id st).1 =
          .ok (some ⟨d.create, id, d.created_at, st⟩))) := by
  constructor
  · intro h
    unfold update_application_status
    rw [h]
  · intro d hd
    have hu : update_application_status db id st =
        (get_application (dbSet db id { d with status := st }) id,
         dbSet db id { d with status := st }) := by
      unfold update_application_status
      rw [hd]
    refine ⟨?_, ?_, ?_⟩
    · rw [hu]
      exact dbLookup_dbSet_self db id _
    · intro j hj
      rw [hu]
      exact dbLookup_dbSet_ne db id j _ hj
    · intro hv
      rw [hu]
      show get_application (dbSet db id { d with status := st }) id =
        .ok (some ⟨d.create, id, d.created_at, st⟩)
      unfold get_application
      rw [dbLookup_dbSet_self]
      show (parseRunnerApplication id { d with status := st }).map some =
        .ok (some ⟨d.create, id, d.created_at, st⟩)
      rw [parse_of_validDoc hv]
      rfl

/-- C3 witness: updating the stored example record to "approved" returns
the refreshed record with only the status changed. -/
theorem c3_amended_witness :
    (update_application_status ⟨[("a", exampleDoc)]⟩ "a" "approved").1 =
      .ok (some ⟨exampleCreate, "a", 10, "approved"⟩) :=
  (((c3_amended ⟨[("a", exampleDoc)]⟩ "a" "approved").2 exampleDoc
    rfl).2.2) (by decide)

/-- C4 counterexample: the payload equal to the documented example but
with name "x " is a valid creation payload (validation accepts it), yet
the creation endpoint answers 400, not 201, and returns no record — the
stored trimmed name "x" fails re-validation when the handler re-reads
the new record, and the resulting pydantic `ValidationError` is a
`ValueError` caught by the handler's `except ValueError`. -/
theorem c4_counterexample :
    validateCreate { examplePayload with name := "x " } =
      .ok { exampleCreate with name := "x" } ∧
    (createEndpoint ⟨[]⟩ { examplePayload with name := "x " }
        "fsid4" 0 .normal).1 = .validationError "validation error" ∧
    (createEndpoint ⟨[]⟩ { examplePayload with name := "x " }
        "fsid4" 0 .normal).1.statusCode = 400 ∧
    (createEndpoint ⟨[]⟩ { examplePayload with name := "x " }
        "fsid4" 0 .normal).1.statusCode ≠ 201 :=
  ⟨rfl, rfl, rfl, by decide⟩

/-- C4 (amended): for every valid creation payload whose retained
(trimmed) name has at least 2 characters, the record returned by
POST /api/applications (status 201) has status "pending", the non-empty
server-assigned id and the server-set creation timestamp; any
caller-supplied status, id or timestamp keys in the body are ignored.
(For accepted payloads whose trimmed name is shorter than 2 characters
the endpoint instead answers 400 and returns no record — see the
counterexample.) -/
theorem c4_amended (db : FirestoreDB) (raw : RawPayload)
    (q : RunnerApplicationCreate) (newId : String) (now : Nat)
    (hok : validateCreate raw = .ok q) (hname : 2 ≤ q.name.length)
    (hid : newId ≠ "") :
    (createEndpoint db raw newId now .normal).1 =
      .created ⟨q, newId, now, "pending"⟩ ∧
    (createEndpoint db raw newId now .normal).1.statusCode = 201 ∧
    (⟨q, newId, now, "pending"⟩ : RunnerApplication).status = "pending" ∧
    (⟨q, newId, now, "pending"⟩ : RunnerApplication).id = newId ∧
    newId ≠ "" ∧
    (⟨q, newId, now, "pending"⟩ : RunnerApplication).created_at = now ∧
    (∀ s i t, createEndpoint db
        { raw with
            supplied_status := s, supplied_id := i,
            supplied_created_at := t } newId now .normal =
      createEndpoint db raw newId now .normal) := by
  have hv : validDoc ⟨q, now, "pending"⟩ = true :=
    validateCreate_parse hok hname
  have hfetch : get_application (dbSet db newId ⟨q, now, "pending"⟩)
      newId = .ok (some ⟨q, newId, now, "pending"⟩) := by
    unfold get_application
    rw [dbLookup_dbSet_self]
    show (parseRunnerApplication newId ⟨q, now, "pending"⟩).map some =
      .ok (some ⟨q, newId, now, "pending"⟩)
    rw [parse_of_validDoc hv]
    rfl
  have hmain : createEndpoint db raw newId now .normal =
      (.created ⟨q, newId, now, "pending"⟩,
       dbSet db newId ⟨q, now, "pending"⟩) := by
    unfold createEndpoint
    rw [hok]
    simp only [show create_application db q newId now =
      (newId, dbSet db newId ⟨q, now, "pending"⟩) from rfl, hfetch]
  refine ⟨?_, ?_, rfl, rfl, hid, rfl, ?_⟩
  · rw [hmain]
  · rw [hmain]
    rfl
  · intro s i t
    rfl

/-- C4 witness: creating the documented example record returns 201 with
status "pending", the server id and the server timestamp. -/
theorem c4_amended_witness :
    (createEndpoint ⟨[]⟩ examplePayload "fsid4w" 7 .normal).1 =
      .created ⟨exampleCreate, "fsid4w", 7, "pending"⟩ ∧
    (createEndpoint ⟨[]⟩ examplePayload "fsid4w" 7 .normal).1.statusCode
      = 201 :=
  ⟨(c4_amended ⟨[]⟩ examplePayload exampleCreate "fsid4w" 7 rfl
      (by decide) (by decide)).1,
   (c4_amended ⟨[]⟩ examplePayload exampleCreate "fsid4w" 7 rfl
      (by decide) (by decide)).2.1⟩

/-- C5: a payload whose age is outside [18, 100], or whose level, goal
or zone is outside its literal set, or whose availability is empty, is
rejected by validation, the creation endpoint answers with the
validation-error status (400), and the store is unchanged — no record is
persisted, whatever the fetch behaviour. -/
theorem c5_invalid_rejected (db : FirestoreDB) (raw : RawPayload)
    (newId : String) (now : Nat) (fetch : FetchMode)
    (h : raw.age < 18 ∨ 100 < raw.age ∨ raw.level ∉ levels ∨
      raw.goal ∉ goals ∨ raw.dublin_zone ∉ zones ∨
      raw.availability = []) :
    (createEndpoint db raw newId now fetch).1.statusCode = 400 ∧
    (createEndpoint db raw newId now fetch).2 = db := by
  have hv : ¬ (validCreateFields
      ⟨raw.name, raw.email, raw.age, raw.level, raw.goal,
       raw.availability, raw.dublin_zone, raw.experience,
       raw.current_pace⟩ = true) := by
    intro hv
    simp only [validCreateFields, Bool.and_eq_true, decide_eq_true_eq,
      Bool.not_eq_true', beq_eq_false_iff_ne] at hv
    obtain ⟨⟨⟨⟨⟨⟨⟨⟨⟨⟨⟨⟨_, _⟩, _⟩, _⟩, h5⟩, h6⟩, h7⟩, h8⟩, h9⟩, h10⟩,
      _⟩, _⟩, _⟩ := hv
    rcases h with h | h | h | h | h | h
    · omega
    · omega
    · exact h (by simpa using h7)
    · exact h (by simpa using h8)
    · exact h (by simpa using h10)
    · rw [h] at h9
      simp at h9
  have hval : validateCreate raw = .error "validation error" := by
    unfold validateCreate validateRAC
    rw [if_neg hv]
  have hmain : createEndpoint db raw newId now fetch =
      (.validationError "validation error", db) := by
    unfold createEndpoint
    rw [hval]
  rw [hmain]
  exact ⟨rfl, rfl⟩

/-- C5 witness: the example payload with age 17 is rejected with 400 and
nothing is stored. -/
theorem c5_invalid_rejected_witness :
    (createEndpoint ⟨[]⟩ { examplePayload with age := 17 }
        "fsid5" 0 .normal).1.statusCode = 400 ∧
    (createEndpoint ⟨[]⟩ { examplePayload with age := 17 }
        "fsid5" 0 .normal).2 = ⟨[]⟩ :=
  c5_invalid_rejected ⟨[]⟩ { examplePayload with age := 17 }
    "fsid5" 0 .normal (by left; decide)

/-- C10 counterexample: the claim says EVERY failing post-create
re-read is answered 500.  The valid payload with name "w " gives a
reachable execution in which the re-read raises a pydantic
`ValidationError` — a `ValueError`, caught by the handler clause
`except ValueError` — and the handler answers 400, not 500 (the record
still remains persisted). -/
theorem c10_counterexample :
    validateCreate { examplePayload with name := "w " } =
      .ok { exampleCreate with name := "w" } ∧
    get_application
      (create_application ⟨[]⟩ { exampleCreate with name := "w" }
        "fsid10c" 0).2 "fsid10c" = .error "validation error" ∧
    (createEndpoint ⟨[]⟩ { examplePayload with name := "w " }
        "fsid10c" 0 .normal).1.statusCode = 400 ∧
    (createEndpoint ⟨[]⟩ { examplePayload with name := "w " }
        "fsid10c" 0 .normal).1.statusCode ≠ 500 ∧
    dbLookup (createEndpoint ⟨[]⟩ { examplePayload with name := "w " }
        "fsid10c" 0 .normal).2 "fsid10c" =
      some ⟨{ exampleCreate with name := "w" }, 0, "pending"⟩ :=
  ⟨rfl, rfl, rfl, by decide, rfl⟩

/-- C10 (amended): the create endpoint is not atomic on its error
paths — for every valid payload, if the Create call succeeds but the
subsequent fetch of the just-created record returns nothing or raises
an exception that is not a `ValueError`, the handler responds 500; if
the fetch raises a pydantic validation error (a `ValueError` subclass),
the handler responds 400 via its `except ValueError` clause; in every
case no rollback is performed and the newly created record remains
persisted in the store despite the error response. -/
theorem c10_no_rollback (db : FirestoreDB) (raw : RawPayload)
    (q : RunnerApplicationCreate) (newId : String) (now : Nat)
    (hok : validateCreate raw = .ok q) :
    (createEndpoint db raw newId now .returnsNone).1 = .internalError ∧
    (createEndpoint db raw newId now .returnsNone).1.statusCode = 500 ∧
    (createEndpoint db raw newId now .returnsNone).2 =
      dbSet db newId ⟨q, now, "pending"⟩ ∧
    (createEndpoint db raw newId now .raises).1 = .internalError ∧
    (createEndpoint db raw newId now .raises).1.statusCode = 500 ∧
    (createEndpoint db raw newId now .raises).2 =
      dbSet db newId ⟨q, now, "pending"⟩ ∧
    dbLookup (createEndpoint db raw newId now .returnsNone).2 newId =
      some ⟨q, now, "pending"⟩ ∧
    (get_application (dbSet db newId ⟨q, now, "pending"⟩) newId =
        .error "validation error" →
      (createEndpoint db raw newId now .normal).1.statusCode = 400 ∧
      (createEndpoint db raw newId now .normal).2 =
        dbSet db newId ⟨q, now, "pending"⟩ ∧
      dbLookup (createEndpoint db raw newId now .normal).2 newId =
        some ⟨q, now, "pending"⟩) := by
  have h1 : createEndpoint db raw newId now .returnsNone =
      (.internalError, dbSet db newId ⟨q, now, "pending"⟩) := by
    unfold createEndpoint
    rw [hok]
    rfl
  have h2 : createEndpoint db raw newId now .raises =
      (.internalError, dbSet db newId ⟨q, now, "pending"⟩) := by
    unfold createEndpoint
    rw [hok]
    rfl
  refine ⟨?_, ?_, ?_, ?_, ?_, ?_, ?_, ?_⟩
  · rw [h1]
  · rw [h1]
    rfl
  · rw [h1]
  · rw [h2]
  · rw [h2]
    rfl
  · rw [h2]
  · rw [h1]
    exact dbLookup_dbSet_self db newId _
  · intro hfail
    have h3 : createEndpoint db raw newId now .normal =
        (.validationError "validation error",
         dbSet db newId ⟨q, now, "pending"⟩) := by
      unfold createEndpoint
      rw [hok]
      simp only [show create_application db q newId now =
        (newId, dbSet db newId ⟨q, now, "pending"⟩) from rfl, hfail]
      rfl
    refine ⟨?_, ?_, ?_⟩
    · rw [h3]
      rfl
    · rw [h3]
    · rw [h3]
      exact dbLookup_dbSet_self db newId _

/-- C10 witness: with the example payload and a re-read that finds
nothing, the handler answers 500 while the record remains stored; with
the payload whose name trims to a single character, the re-read raises
a validation error, the handler answers 400, and the record likewise
remains stored. -/
theorem c10_no_rollback_witness :
    CreateResult.statusCode
      (createEndpoint ⟨[]⟩ examplePayload "fsid10" 3 .returnsNone).1
      = 500 ∧
    dbLookup (createEndpoint ⟨[]⟩ examplePayload "fsid10" 3
        .returnsNone).2 "fsid10" = some ⟨exampleCreate, 3, "pending"⟩ ∧
    CreateResult.statusCode
      (createEndpoint ⟨[]⟩ { examplePayload with name := "v " }
        "fsid10v" 3 .normal).1 = 400 ∧
    dbLookup (createEndpoint ⟨[]⟩ { examplePayload with name := "v " }
        "fsid10v" 3 .normal).2 "fsid10v" =
      some ⟨{ exampleCreate with name := "v" }, 3, "pending"⟩ :=
  ⟨(c10_no_rollback ⟨[]⟩ examplePayload exampleCreate "fsid10" 3
      rfl).2.1,
   (c10_no_rollback ⟨[]⟩ examplePayload exampleCreate "fsid10" 3
      rfl).2.2.2.2.2.2.1,
   ((c10_no_rollback ⟨[]⟩ { examplePayload with name := "v " }
      { exampleCreate with name := "v" } "fsid10v" 3
      rfl).2.2.2.2.2.2.2 rfl).1,
   ((c10_no_rollback ⟨[]⟩ { examplePayload with name := "v " }
      { exampleCreate with name := "v" } "fsid10v" 3
      rfl).2.2.2.2.2.2.2 rfl).2.2⟩

/-- C9: Delete(id) returns true exactly when a record with that id
existed (and then removes it, leaving other records untouched) and false
when it did not (leaving the store unchanged); at the HTTP level the
delete endpoint answers 204 when the id exists and 404 when it does not,
the id is absent afterwards in either case, and a second delete of the
same id therefore answers 404. -/
theorem c9_delete (db : FirestoreDB) (id : String) :
    ((delete_application db id).1 = true ↔ (dbLookup db id).isSome) ∧
    ((delete_application db id).1 = true →
      dbLookup (delete_application db id).2 id = none ∧
      ∀ j, j ≠ id →
        dbLookup (delete_application db id).2 j = dbLookup db j) ∧
    ((delete_application db id).1 = false →
      (delete_application db id).2 = db ∧ dbLookup db id = none) ∧
    (delete_endpoint db id).1 =
      (if (dbLookup db id).isSome then 204 else 404) ∧
    dbLookup (delete_endpoint db id).2 id = none ∧
    (∀ j, j ≠ id →
      dbLookup (delete_endpoint db id).2 j = dbLookup db j) ∧
    (delete_endpoint (delete_endpoint db id).2 id).1 = 404 := by
  cases hd : dbLookup db id with
  | none =>
    have h1 : delete_application db id = (false, db) := by
      unfold delete_application
      rw [hd]
    have h2 : delete_endpoint db id = (404, db) := by
      unfold delete_endpoint
      rw [h1]
    refine ⟨?_, ?_, ?_, ?_, ?_, ?_, ?_⟩
    · rw [h1]
      simp [hd]
    · rw [h1]
      intro h
      exact absurd h (by simp)
    · intro _
      rw [h1]
      exact ⟨rfl, rfl⟩
    · rw [h2]
      rfl
    · rw [h2]
      exact hd
    · intro j _
      rw [h2]
    · rw [h2]
      show (delete_endpoint db id).1 = 404
      rw [h2]
  | some d =>
    have h1 : delete_application db id = (true, dbDelete db id) := by
      unfold delete_application
      rw [hd]
    have h2 : delete_endpoint db id = (204, dbDelete db id) := by
      unfold delete_endpoint
      rw [h1]
    have habsent : dbLookup (dbDelete db id) id = none :=
      dbLookup_dbDelete_self db id
    refine ⟨?_, ?_, ?_, ?_, ?_, ?_, ?_⟩
    · rw [h1]
      simp [hd]
    · intro _
      rw [h1]
      exact ⟨habsent, fun j hj => dbLookup_dbDelete_ne db id j hj⟩
    · rw [h1]
      intro h
      exact absurd h (by simp)
    · rw [h2]
      rfl
    · rw [h2]
      exact habsent
    · intro j hj
      rw [h2]
      exact dbLookup_dbDelete_ne db id j hj
    · rw [h2]
      show (delete_endpoint (dbDelete db id) id).1 = 404
      have h3 : delete_application (dbDelete db id) id =
          (false, dbDelete db id) := by
        unfold delete_application
        rw [habsent]
      unfold delete_endpoint
      rw [h3]

/-- C9 witness: deleting the stored example record answers 204, the
record is gone, and deleting it again answers 404. -/
theorem c9_delete_witness :
    (delete_endpoint ⟨[("a", exampleDoc)]⟩ "a").1 = 204 ∧
    dbLookup (delete_endpoint ⟨[("a", exampleDoc)]⟩ "a").2 "a" = none ∧
    (delete_endpoint
      (delete_endpoint ⟨[("a", exampleDoc)]⟩ "a").2 "a").1 = 404 ∧
    dbLookup (delete_endpoint ⟨[("a", exampleDoc)]⟩ "a").2 "b" =
      dbLookup ⟨[("a", exampleDoc)]⟩ "b" :=
  ⟨((c9_delete ⟨[("a", exampleDoc)]⟩ "a").2.2.2.1).trans (by decide),
   (c9_delete ⟨[("a", exampleDoc)]⟩ "a").2.2.2.2.1,
   (c9_delete ⟨[("a", exampleDoc)]⟩ "a").2.2.2.2.2.2,
   (c9_delete ⟨[("a", exampleDoc)]⟩ "a").2.2.2.2.2.1 "b" (by decide)⟩

/-- C6 counterexample: the claim quantifies over EVERY store state, but
a store holding a record whose stored name fails re-validation makes
the list query raise instead of returning the filtered records — and
such a store is reachable through the creation endpoint itself: posting
the accepted payload with name "b " persists the trimmed name "b"
(length 1), after which `get_applications` raises a validation error on
re-read. -/
theorem c6_counterexample :
    (createEndpoint ⟨[]⟩ { examplePayload with name := "b " }
        "cid6" 4 .normal).2 =
      ⟨[("cid6", ⟨{ exampleCreate with name := "b" }, 4, "pending"⟩)]⟩ ∧
    get_applications
      ⟨[("cid6", ⟨{ exampleCreate with name := "b" }, 4, "pending"⟩)]⟩
      50 none none = .error "validation error" :=
  ⟨rfl, rfl⟩

/-- C6 (amended): for every store state all of whose records
re-validate (in particular every stored name is trimmed and 2-100
characters — which excludes states reachable by creating an accepted
payload whose name trims below 2 characters; on those the query raises
instead of returning records), List(limit, level, goal) succeeds and
returns the selected documents: every returned record satisfies the
provided equality filters — a filter counts as provided when it is a
non-empty string, since Python truthiness (`if level:`) treats "" like
None — the result is ordered by creation timestamp descending, its
length is limit truncating the number of matching records, the
selection is (before truncation) a permutation of exactly the matching
records of the store, and the HTTP endpoint defaults the limit to 50
when it is not supplied. -/
theorem c6_list_query (db : FirestoreDB) (limit : Nat)
    (level goal : Option String)
    (hvalid : ∀ x ∈ db.docs, validDoc x.2 = true)
    (hl : level ≠ some "") (hg : goal ≠ some "") :
    get_applications db limit level goal =
      .ok ((queryDocs db limit level goal).map docToApp) ∧
    (∀ r ∈ (queryDocs db limit level goal).map docToApp,
      (∀ s, level = some s → r.create.level = s) ∧
      (∀ s, goal = some s → r.create.goal = s)) ∧
    List.Pairwise (fun a b => b.created_at ≤ a.created_at)
      ((queryDocs db limit level goal).map docToApp) ∧
    ((queryDocs db limit level goal).map docToApp).length =
      min limit ((db.docs.filter
        (fun x => levelMatch level x.2 && goalMatch goal x.2)).length) ∧
    ((db.docs.insertionSort byCreatedDesc).filter
        (fun x => levelMatch level x.2 && goalMatch goal x.2)).Perm
      (db.docs.filter
        (fun x => levelMatch level x.2 && goalMatch goal x.2)) ∧
    list_applications db none level goal =
      get_applications db 50 level goal := by
  refine ⟨?_, ?_, ?_, ?_, ?_, rfl⟩
  · exact mapM_parse_of_valid _ (queryDocs_valid hvalid limit level goal)
  · intro r hr
    obtain ⟨x, hx, hdx⟩ := List.mem_map.mp hr
    obtain ⟨hlm, hgm⟩ := queryDocs_mem_filter hx
    constructor
    · intro s hs
      subst hs
      have hne : s ≠ "" := fun he => hl (by rw [he])
      rw [levelMatch, if_neg hne] at hlm
      rw [← hdx]
      exact beq_iff_eq.mp hlm
    · intro s hs
      subst hs
      have hne : s ≠ "" := fun he => hg (by rw [he])
      rw [goalMatch, if_neg hne] at hgm
      rw [← hdx]
      exact beq_iff_eq.mp hgm
  · exact List.Pairwise.map docToApp (fun a b hab => hab)
      (queryDocs_sorted db limit level goal)
  · rw [List.length_map]
    exact queryDocs_length db limit level goal
  · exact (List.perm_insertionSort byCreatedDesc db.docs).filter _

/-- C6 witness: filtering the three-record store by level "beginner"
returns exactly the two beginner records, newest first. -/
theorem c6_list_query_witness :
    get_applications ⟨statsDocs⟩ 50 (some "beginner") none =
      .ok [⟨exampleBeginner, "a", 3, "pending"⟩,
           ⟨exampleBeginner, "b", 2, "pending"⟩] :=
  ((c6_list_query ⟨statsDocs⟩ 50 (some "beginner") none (by decide)
      (by decide) (by decide)).1).trans rfl

/-- C7: when the unfiltered fetch with limit 1000 yields a record list,
GET /api/stats returns total_applications equal to the number of fetched
records, and each of by_level, by_goal, by_zone maps exactly the keys
occurring in the records to the number of records carrying that value,
with no other keys present (lookup of any other key is none). -/
theorem c7_stats (db : FirestoreDB) (apps : List RunnerApplication)
    (h : get_applications db 1000 none none = .ok apps) :
    get_stats db = .ok (tallyStats apps) ∧
    (tallyStats apps).total_applications = apps.length ∧
    (∀ k, (tallyStats apps).by_level.lookup k =
      (if (apps.map (fun a => a.create.level)).count k = 0 then none
       else some ((apps.map (fun a => a.create.level)).count k))) ∧
    (∀ k, (tallyStats apps).by_goal.lookup k =
      (if (apps.map (fun a => a.create.goal)).count k = 0 then none
       else some ((apps.map (fun a => a.create.goal)).count k))) ∧
    (∀ k, (tallyStats apps).by_zone.lookup k =
      (if (apps.map (fun a => a.create.dublin_zone)).count k = 0
       then none
       else some ((apps.map (fun a => a.create.dublin_zone)).count k)))
    := by
  refine ⟨?_, tallyStats_total apps, ?_, ?_, ?_⟩
  · unfold get_stats
    rw [h]
    rfl
  · intro k
    rw [tallyStats_by_level, lookup_tally]
  · intro k
    rw [tallyStats_by_goal, lookup_tally]
  · intro k
    rw [tallyStats_by_zone, lookup_tally]

/-- C7 witness: the stats example of the spec — three records with
levels beginner, beginner, advanced tally to by_level
beginner 2, advanced 1 (and no key for a level that never occurs). -/
theorem c7_stats_witness :
    get_stats ⟨statsDocs⟩ = .ok (tallyStats statsApps) ∧
    (tallyStats statsApps).by_level.lookup "beginner" = some 2 ∧
    (tallyStats statsApps).by_level.lookup "advanced" = some 1 ∧
    (tallyStats statsApps).by_level.lookup "intermediate" = none ∧
    (tallyStats statsApps).total_applications = 3 :=
  ⟨(c7_stats ⟨statsDocs⟩ statsApps rfl).1,
   ((c7_stats ⟨statsDocs⟩ statsApps rfl).2.2.1 "beginner").trans
     (by decide),
   ((c7_stats ⟨statsDocs⟩ statsApps rfl).2.2.1 "advanced").trans
     (by decide),
   ((c7_stats ⟨statsDocs⟩ statsApps rfl).2.2.1 "intermediate").trans
     (by decide),
   ((c7_stats ⟨statsDocs⟩ statsApps rfl).2.1).trans (by decide)⟩
